import Mathlib

/-!
Shallow embedding of the propolis PCI configuration-space dispatch
(src/pci.rs) and of the xHCI register/bit-field definitions
(lib/propolis/src/hw/usb/xhci/bits.rs and registers.rs).

Conventions:
* Machine integers (u8/u16/u32) are embedded as `Nat`; a cast `x as u8`
  becomes `x % 256`, and masking with a constant uses `&&&`.
* Code that can panic (a failed `assert!`, an out-of-bounds slice, a
  `copy_from_slice` length mismatch, an unreachable `panic!()` arm) is
  embedded as `Option`/`Except`, with `none` / `.error ()` marking the panic.
* A guest I/O buffer that is only written (the `data: &mut [u8]` of a port
  read) is represented by its length on the way in and by the resulting
  byte list on the way out.
-/

deriving instance DecidableEq for Except

namespace Propolis

/-- Port number of the PCI CONFIG_ADDRESS I/O port (pci.rs). -/
def PORT_PCI_CONFIG_ADDR : Nat := 0xcf8

/-- Port number of the PCI CONFIG_DATA I/O port (pci.rs). -/
def PORT_PCI_CONFIG_DATA : Nat := 0xcfc

/-- `MASK_FUNC` from pci.rs. -/
def MASK_FUNC : Nat := 0b111

/-- `MASK_DEV` from pci.rs. -/
def MASK_DEV : Nat := 0b1111

/-- `MASK_BUS` from pci.rs. -/
def MASK_BUS : Nat := 0b11111111

/-- `PciBDF`: bus/device/function triple (pci.rs). -/
structure PciBDF where
  bus : Nat
  dev : Nat
  func : Nat
deriving DecidableEq

/-- `PciBDF::new` (pci.rs). The two `assert!`s are the `none` branches:
on a u8, `!MASK_DEV = 0xF0` and `!MASK_FUNC = 0xF8`. -/
def PciBDF.new (bus dev func : Nat) : Option PciBDF :=
  if dev &&& 0xF0 ≠ 0 then none
  else if func &&& 0xF8 ≠ 0 then none
  else some ⟨bus, dev, func⟩

/-- Little-endian bytes of a u16. -/
def u16_le_bytes (v : Nat) : List Nat :=
  [v % 256, (v >>> 8) % 256]

/-- `u32::to_le_bytes`. -/
def u32_le_bytes (v : Nat) : List Nat :=
  [v % 256, (v >>> 8) % 256, (v >>> 16) % 256, (v >>> 24) % 256]

/-- `u32::from_le_bytes` on a 4-byte buffer. -/
def u32_from_le_bytes (data : List Nat) : Nat :=
  match data with
  | [b0, b1, b2, b3] => b0 ||| (b1 <<< 8) ||| (b2 <<< 16) ||| (b3 <<< 24)
  | _ => 0

/-- `PciDev` (pci.rs): holds the 64-byte packed `PciHeader`, represented
directly by its `as_bytes` serialization. -/
structure PciDev where
  header : List Nat
deriving DecidableEq

/-- `PciDev::new` (pci.rs): a default-zero `PciHeader` with `vendor_id`
(bytes 0-1 LE), `device_id` (bytes 2-3 LE), `class` (byte 9) and
`subclass` (byte 10) filled in.  The packed layout is: vendor_id u16,
device_id u16, command u16, status u16, revision_id u8, class u8,
subclass u8, prog_if u8, then 52 further default-zero bytes (cache line,
latency, header type, BIST, 6 BARs, cardbus ptr, subsystem ids, expansion
ROM, cap ptr, reserved, interrupt/grant/latency bytes), 64 bytes total. -/
def PciDev.new (vendor_id device_id class_ subclass : Nat) : PciDev :=
  ⟨u16_le_bytes vendor_id ++ u16_le_bytes device_id
    ++ [0, 0, 0, 0]
    ++ [0, class_, subclass, 0]
    ++ List.replicate 52 0⟩

/-- `PciDev::cfg_read` (pci.rs), faithful to the source:
`assert!(off + data.len() < cfg.len())`, then
`let to_copy = &cfg[off..(off + cfg.len())]` (note: `cfg.len()`, not
`data.len()`), then `data.copy_from_slice(to_copy)`.  The slice panics
unless `off + cfg.len() <= cfg.len()`, and `copy_from_slice` panics unless
the two lengths agree; any panic is `none`. -/
def PciDev.cfg_read (d : PciDev) (offset len : Nat) : Option (List Nat) :=
  let cfg := d.header
  let off := offset
  if ¬ (off + len < cfg.length) then none
  else if ¬ (off + cfg.length ≤ cfg.length) then none
  else
    let to_copy := (cfg.drop off).take cfg.length
    if len = to_copy.length then some to_copy else none

/-- `read_inval` (pci.rs): fill the buffer with `0xFF`. -/
def read_inval (len : Nat) : List Nat := List.replicate len 0xff

/-- `PciBusState` (pci.rs): latched CONFIG_ADDRESS value plus the
registered-device vector. -/
structure PciBusState where
  pio_cfg_addr : Nat
  devices : List (PciBDF × PciDev)
deriving DecidableEq

/-- The `devices.iter().find(|(sbdf, _)| sbdf == bdf)` lookup used by
`PciBusState::cfg_read` and `PciBusState::register` (pci.rs), projected
to the device. -/
def PciBusState.find_dev (st : PciBusState) (bdf : PciBDF) : Option PciDev :=
  (st.devices.find? (fun p => p.1 == bdf)).map Prod.snd

/-- `PciBusState::cfg_read` (pci.rs): forward to the registered device if
present, otherwise `read_inval`. -/
def PciBusState.cfg_read (st : PciBusState) (bdf : PciBDF) (offset len : Nat) :
    Option (List Nat) :=
  match st.find_dev bdf with
  | some dev => dev.cfg_read offset len
  | none => some (read_inval len)

/-- `PciBusState::register` (pci.rs): `assert!` that the BDF is not yet
present (panic is `none`), then push the new entry. -/
def PciBusState.register (st : PciBusState) (bdf : PciBDF) (dev : PciDev) :
    Option PciBusState :=
  if (st.find_dev bdf).isSome then none
  else some { st with devices := st.devices ++ [(bdf, dev)] }

/-- `cfg_addr_parse` (pci.rs).  Bit 31 clear yields `Ok none` (disabled);
otherwise offset/func/device/bus are extracted (`as u8` is `% 256`) and
`PciBDF::new` is called; the `.error ()` branch marks a panic of its
assertions. -/
def cfg_addr_parse (addr : Nat) : Except Unit (Option (PciBDF × Nat)) :=
  if addr &&& 0x80000000 = 0 then .ok none
  else
    let offset := addr &&& 0xff
    let func := ((addr >>> 8) % 256) &&& MASK_FUNC
    let device := ((addr >>> 11) % 256) &&& MASK_DEV
    let bus := ((addr >>> 16) % 256) &&& MASK_BUS
    match PciBDF.new bus device func with
    | some bdf => .ok (some (bdf, offset))
    | none => .error ()

/-- `<PciBus as InoutDev>::pio_out` (pci.rs), as a state transformer on
`PciBusState`; `.error ()` is the `panic!()` arm for an unknown port. -/
def PciBus.pio_out (st : PciBusState) (port off : Nat) (data : List Nat) :
    Except Unit PciBusState :=
  if off ≠ 0 ∨ data.length ≠ 4 then .ok st
  else if port = PORT_PCI_CONFIG_ADDR then
    .ok { st with pio_cfg_addr := u32_from_le_bytes data }
  else if port = PORT_PCI_CONFIG_DATA then
    .ok st
  else .error ()

/-- `<PciBus as InoutDev>::pio_in` (pci.rs): returns the bytes left in the
guest buffer, or `none` on a panic.  Faithful details: a nonzero offset
returns `read_inval` before the port is examined; the CONFIG_ADDRESS arm
does `data.copy_from_slice(&u32::to_le_bytes(addr))`, which panics unless
the buffer is exactly 4 bytes; the CONFIG_DATA arm runs `cfg_read` when
the latched address decodes, and then unconditionally applies `read_inval`
to the buffer ("assume no devices for now"). -/
def PciBus.pio_in (st : PciBusState) (port off len : Nat) : Option (List Nat) :=
  if off ≠ 0 then some (read_inval len)
  else if port = PORT_PCI_CONFIG_ADDR then
    if len = 4 then some (u32_le_bytes st.pio_cfg_addr) else none
  else if port = PORT_PCI_CONFIG_DATA then
    match cfg_addr_parse st.pio_cfg_addr with
    | .error _ => none
    | .ok none => some (read_inval len)
    | .ok (some (bdf, o)) =>
      match st.cfg_read bdf o len with
      | none => none
      | some _ => some (read_inval len)
  else none

/-! xHCI bit-field definitions (lib/propolis/src/hw/usb/xhci/bits.rs). -/

/-- `USB_PCI_CFG_REG_SZ` (bits.rs). -/
def USB_PCI_CFG_REG_SZ : Nat := 3

/-- `XHC_CAP_BASE_REG_SZ` (bits.rs). -/
def XHC_CAP_BASE_REG_SZ : Nat := 0x20

/-- Generated getter for the `max_scratchpad_bufs_hi` bit-field of
`HcStructuralParameters2` (bits 21..26 of the u32; bits.rs). -/
def max_scratchpad_bufs_hi (s : Nat) : Nat := (s >>> 21) &&& 0b11111

/-- Generated getter for the `max_scratchpad_bufs_lo` bit-field of
`HcStructuralParameters2` (bits 27..32 of the u32; bits.rs). -/
def max_scratchpad_bufs_lo (s : Nat) : Nat := (s >>> 27) &&& 0b11111

/-- Generated setter for `max_scratchpad_bufs_hi`: replace bits 21..26,
preserving all other bits (value masked to the field width). -/
def with_max_scratchpad_bufs_hi (s v : Nat) : Nat :=
  (s &&& 0xFC1FFFFF) ||| ((v &&& 0b11111) <<< 21)

/-- Generated setter for `max_scratchpad_bufs_lo`: replace bits 27..32,
preserving all other bits (value masked to the field width). -/
def with_max_scratchpad_bufs_lo (s v : Nat) : Nat :=
  (s &&& 0x07FFFFFF) ||| ((v &&& 0b11111) <<< 27)

/-- `HcStructuralParameters2::max_scratchpad_bufs` (bits.rs), faithful to
the source: `let lo = self.max_scratchpad_bufs_lo() as u16 | 0b11111;`
`let hi = self.max_scratchpad_bufs_hi() as u16 | 0b11111;`
`(hi << 5) | lo`. -/
def max_scratchpad_bufs (s : Nat) : Nat :=
  ((max_scratchpad_bufs_hi s ||| 0b11111) <<< 5)
    ||| (max_scratchpad_bufs_lo s ||| 0b11111)

/-- `HcStructuralParameters2::with_max_scratchpad_bufs` (bits.rs):
`lo = max & 0b11111`, `hi = (max >> 5) & 0b11111`, write both fields. -/
def with_max_scratchpad_bufs (s maxv : Nat) : Nat :=
  with_max_scratchpad_bufs_hi
    (with_max_scratchpad_bufs_lo s (maxv &&& 0b11111))
    ((maxv >>> 5) &&& 0b11111)

/-! xHCI register layouts (lib/propolis/src/hw/usb/xhci/registers.rs,
port counts from controller.rs). -/

/-- `NUM_USB2_PORTS` (controller.rs). -/
def NUM_USB2_PORTS : Nat := 4

/-- `NUM_USB3_PORTS` (controller.rs). -/
def NUM_USB3_PORTS : Nat := 4

/-- `UsbPciCfgReg` (registers.rs). -/
inductive UsbPciCfgReg where
  | SerialBusReleaseNumber
  | FrameLengthAdjustment
  | DefaultBestEffortServiceLatencies
deriving DecidableEq

/-- `CapabilityRegisters` (registers.rs). -/
inductive CapabilityRegisters where
  | CapabilityLength
  | HciVersion
  | HcStructuralParameters1
  | HcStructuralParameters2
  | HcStructuralParameters3
  | HcCapabilityParameters1
  | HcCapabilityParameters2
  | DoorbellOffset
  | RuntimeRegisterSpaceOffset
deriving DecidableEq

/-- `PortRegisters` (registers.rs). -/
inductive PortRegisters where
  | PortStatusControl
  | PortPowerManagementStatusControl
  | PortLinkInfo
  | PortHardwareLpmControl
deriving DecidableEq

/-- `OperationalRegisters` (registers.rs). -/
inductive OperationalRegisters where
  | UsbCommand
  | UsbStatus
  | PageSize
  | DeviceNotificationControl
  | CommandRingControlRegister
  | DeviceContextBaseAddressArrayPointerRegister
  | Configure
  | Port (i : Nat) (r : PortRegisters)
deriving DecidableEq

/-- `Registers` (registers.rs). -/
inductive Registers where
  | Reserved
  | Cap (c : CapabilityRegisters)
  | Op (o : OperationalRegisters)
deriving DecidableEq

/-- The layout array passed to `RegMap::create_packed` for
`USB_PCI_CFG_REGS` (registers.rs). -/
def usb_pci_cfg_layout : List (UsbPciCfgReg × Nat) :=
  [(.SerialBusReleaseNumber, 1),
   (.FrameLengthAdjustment, 1),
   (.DefaultBestEffortServiceLatencies, 1)]

/-- `cap_layout` from the `XHC_REGS` initializer (registers.rs). -/
def cap_layout : List (Registers × Nat) :=
  [(.Cap .CapabilityLength, 1),
   (.Reserved, 1),
   (.Cap .HciVersion, 2),
   (.Cap .HcStructuralParameters1, 4),
   (.Cap .HcStructuralParameters2, 4),
   (.Cap .HcStructuralParameters3, 4),
   (.Cap .HcCapabilityParameters1, 4),
   (.Cap .DoorbellOffset, 4),
   (.Cap .RuntimeRegisterSpaceOffset, 4),
   (.Cap .HcCapabilityParameters2, 4)]

/-- The fixed prefix of `op_layout` from the `XHC_REGS` initializer
(registers.rs), before the per-port registers are chained on. -/
def op_layout_fixed : List (Registers × Nat) :=
  [(.Op .UsbCommand, 4),
   (.Op .UsbStatus, 4),
   (.Op .PageSize, 4),
   (.Reserved, 8),
   (.Op .DeviceNotificationControl, 4),
   (.Op .CommandRingControlRegister, 8),
   (.Reserved, 16),
   (.Op .DeviceContextBaseAddressArrayPointerRegister, 8),
   (.Op .Configure, 4),
   (.Reserved, 964)]

/-- The per-port register quadruple produced by the `flat_map` in the
`XHC_REGS` initializer (registers.rs). -/
def port_layout (i : Nat) : List (Registers × Nat) :=
  [(.Op (.Port i .PortStatusControl), 4),
   (.Op (.Port i .PortPowerManagementStatusControl), 4),
   (.Op (.Port i .PortLinkInfo), 4),
   (.Op (.Port i .PortHardwareLpmControl), 4)]

/-- `op_layout` from the `XHC_REGS` initializer (registers.rs): the fixed
entries chained with the per-port quadruples for all
`NUM_USB2_PORTS + NUM_USB3_PORTS` ports. -/
def op_layout : List (Registers × Nat) :=
  op_layout_fixed
    ++ (List.range (NUM_USB2_PORTS + NUM_USB3_PORTS)).flatMap port_layout

/-- The full layout iterator passed to `RegMap::create_packed_iter` for
`XHC_REGS` (registers.rs): `cap_layout.chain(op_layout)`. -/
def xhc_layout : List (Registers × Nat) := cap_layout ++ op_layout

/-- Sum of the byte lengths of a register layout (the accumulated running
offset a packed register map construction would reach). -/
def layoutSum {α : Type} (l : List (α × Nat)) : Nat :=
  (l.map Prod.snd).sum

/-! Theorems. -/

/-- Helper: any value below 32 ORed with 0b11111 is 0b11111. -/
lemma lor_five_bits : ∀ y < 32, y ||| 31 = 31 := by decide

/-- Helper: a 4-bit value masked with 0xF0 is zero. -/
lemma low4_and_high4 : ∀ d < 16, d &&& 0xF0 = 0 := by decide

/-- Helper: a 3-bit value masked with 0xF8 is zero. -/
lemma low3_and_high5 : ∀ f < 8, f &&& 0xF8 = 0 := by decide

/-- C1: a 4-byte CONFIG_DATA read at offset 0, with the latched address
enabled and decoding to a registered BDF, does not return the device's
header bytes: `PciDev::cfg_read` itself panics (it slices
`cfg[off..off+cfg.len()]` instead of `off+data.len()`), both at a nonzero
decoded offset (0x34) and at decoded offset 0, so the whole `pio_in`
panics instead of forwarding the header bytes. -/
theorem c1_cfg_data_registered_read_panics :
    PciDev.cfg_read (PciDev.new 0x1de 0x0 0x0c 0x03) 0x34 4 = none
    ∧ PciDev.cfg_read (PciDev.new 0x1de 0x0 0x0c 0x03) 0x0 4 = none
    ∧ PciBus.pio_in
        ⟨0x80000034, [(⟨0, 0, 0⟩, PciDev.new 0x1de 0x0 0x0c 0x03)]⟩
        PORT_PCI_CONFIG_DATA 0 4 = none := by
  decide

/-- C2: `max_scratchpad_bufs` returns 1023 on every register value, because
the getter ORs each extracted 5-bit half with 0b11111 instead of using the
raw field; in particular the round-trip through
`with_max_scratchpad_bufs 0 0` yields 1023, not 0. -/
theorem c2_max_scratchpad_bufs_always_1023 :
    (∀ s : Nat, max_scratchpad_bufs s = 1023)
    ∧ max_scratchpad_bufs (with_max_scratchpad_bufs 0 0) = 1023 := by
  have key : ∀ s : Nat, max_scratchpad_bufs s = 1023 := by
    intro s
    unfold max_scratchpad_bufs max_scratchpad_bufs_hi max_scratchpad_bufs_lo
    rw [lor_five_bits _ (Nat.lt_succ_of_le Nat.and_le_right),
        lor_five_bits _ (Nat.lt_succ_of_le Nat.and_le_right)]
    decide
  exact ⟨key, key _⟩

/-- C3: `cfg_addr_parse 0x80001234` decodes (no panic) to bus 0x00, device
bits[15:11], function bits[10:8] and register offset 0x34; and every
32-bit address with bit 31 clear parses to the disabled result `none`,
regardless of the other 31 bits. -/
theorem c3_cfg_addr_parse_decode :
    cfg_addr_parse 0x80001234 =
      .ok (some (⟨0x00, (0x80001234 >>> 11) &&& 0x1F, (0x80001234 >>> 8) &&& 0x7⟩,
        0x34))
    ∧ ∀ addr : Nat, addr < 2 ^ 32 → addr &&& 0x80000000 = 0 →
        cfg_addr_parse addr = .ok none := by
  refine ⟨by decide, ?_⟩
  intro addr _ h
  simp [cfg_addr_parse, h]

/-- Witness for C3 at the concrete disabled address 0x7FFFFFFF. -/
theorem c3_witness : cfg_addr_parse 0x7FFFFFFF = .ok none :=
  c3_cfg_addr_parse_decode.2 0x7FFFFFFF (by decide) (by decide)

/-- C4: a 4-byte CONFIG_DATA read at offset 0 (in fact a read of any
length) returns a buffer of all 0xFF bytes whenever the latched address
has the enable bit clear or decodes to a BDF with no registered device. -/
theorem c4_cfg_data_unmapped_read_all_ones (st : PciBusState) (len : Nat)
    (h : cfg_addr_parse st.pio_cfg_addr = .ok none
      ∨ ∃ bdf o, cfg_addr_parse st.pio_cfg_addr = .ok (some (bdf, o))
          ∧ st.find_dev bdf = none) :
    PciBus.pio_in st PORT_PCI_CONFIG_DATA 0 len = some (List.replicate len 0xff) := by
  have hports : PORT_PCI_CONFIG_DATA ≠ PORT_PCI_CONFIG_ADDR := by decide
  rcases h with h | ⟨bdf, o, hp, hf⟩
  · simp [PciBus.pio_in, hports, h, read_inval]
  · simp [PciBus.pio_in, hports, hp, PciBusState.cfg_read, hf, read_inval]

/-- Witness for C4: a fresh bus (latched address 0, no devices) read. -/
theorem c4_witness :
    PciBus.pio_in ⟨0, []⟩ PORT_PCI_CONFIG_DATA 0 4 = some (List.replicate 4 0xff) :=
  c4_cfg_data_unmapped_read_all_ones ⟨0, []⟩ 4 (Or.inl (by decide))

/-- C5 counterexample: address 0x80008000 has the enable bit set and its
device field bits[15:11] equals 0x10 (bit 4 set), yet decoding does not
reject it at `PciBDF::new`: it succeeds with the device number masked to
its low 4 bits (0). -/
theorem c5_counterexample :
    (0x80008000 : Nat) &&& 0x80000000 ≠ 0
    ∧ ((0x80008000 : Nat) >>> 11) &&& 0x1F = 0x10
    ∧ cfg_addr_parse 0x80008000 ≠ .error ()
    ∧ cfg_addr_parse 0x80008000 = .ok (some (⟨0x00, 0x00, 0x00⟩, 0x00)) := by
  decide

/-- C5 (amended): for every latched CONFIG_ADDRESS with the enable bit set,
decoding always succeeds — `PciBDF::new`'s assertions never fire — with the
device number masked down to its low 4 bits (and the function to 3 bits). -/
theorem c5_device_field_masked (addr : Nat) (h : addr &&& 0x80000000 ≠ 0) :
    cfg_addr_parse addr =
      .ok (some (⟨(addr >>> 16) % 256 &&& MASK_BUS,
                  (addr >>> 11) % 256 &&& MASK_DEV,
                  (addr >>> 8) % 256 &&& MASK_FUNC⟩, addr &&& 0xff)) := by
  have hd : (((addr >>> 11) % 256) &&& MASK_DEV) &&& 0xF0 = 0 :=
    low4_and_high4 _ (Nat.lt_succ_of_le Nat.and_le_right)
  have hf : (((addr >>> 8) % 256) &&& MASK_FUNC) &&& 0xF8 = 0 :=
    low3_and_high5 _ (Nat.lt_succ_of_le Nat.and_le_right)
  simp [cfg_addr_parse, h, PciBDF.new, hd, hf]

/-- Witness for C5 at the concrete address 0x80008001 (device field 0x10). -/
theorem c5_witness :
    cfg_addr_parse 0x80008001 =
      .ok (some (⟨(0x80008001 >>> 16) % 256 &&& MASK_BUS,
                  (0x80008001 >>> 11) % 256 &&& MASK_DEV,
                  (0x80008001 >>> 8) % 256 &&& MASK_FUNC⟩, 0x80008001 &&& 0xff)) :=
  c5_device_field_masked 0x80008001 (by decide)

/-- C6: a wrongly-sized guest read is fatal: a 2-byte `pio_in` of
CONFIG_ADDRESS at offset 0 panics (the handler does
`data.copy_from_slice(&u32::to_le_bytes(addr))` without checking that the
buffer is 4 bytes), contradicting the claim that no access to the two PCI
config ports aborts. -/
theorem c6_config_addr_short_read_panics :
    PciBus.pio_in ⟨0, []⟩ PORT_PCI_CONFIG_ADDR 0 2 = none := by
  decide

/-- C7: a `pio_out` to CONFIG_ADDRESS with a nonzero offset or a length
other than 4 leaves the latched value (and all bus state) unchanged with
no error, and a 4-byte write at offset 0 latches the little-endian u32
verbatim. -/
theorem c7_config_addr_write_latch (st : PciBusState) (off : Nat)
    (data : List Nat) :
    (off ≠ 0 ∨ data.length ≠ 4 →
      PciBus.pio_out st PORT_PCI_CONFIG_ADDR off data = .ok st)
    ∧ (off = 0 → data.length = 4 →
      PciBus.pio_out st PORT_PCI_CONFIG_ADDR off data =
        .ok { st with pio_cfg_addr := u32_from_le_bytes data }) := by
  constructor
  · intro h
    simp [PciBus.pio_out, h]
  · intro h1 h2
    simp [PciBus.pio_out, h1, h2]

/-- Witness for C7: a misaligned 1-byte write is a no-op, and a 4-byte
write at offset 0 latches 0x80001234. -/
theorem c7_witness :
    PciBus.pio_out ⟨0, []⟩ PORT_PCI_CONFIG_ADDR 2 [7] = .ok ⟨0, []⟩
    ∧ PciBus.pio_out ⟨0, []⟩ PORT_PCI_CONFIG_ADDR 0 [0x34, 0x12, 0x00, 0x80] =
        .ok ⟨0x80001234, []⟩ := by
  constructor
  · exact (c7_config_addr_write_latch ⟨0, []⟩ 2 [7]).1 (Or.inl (by decide))
  · have h := (c7_config_addr_write_latch ⟨0, []⟩ 0 [0x34, 0x12, 0x00, 0x80]).2
      rfl rfl
    exact h.trans (by decide)

/-- C8: registering a device at a BDF that is already present aborts (the
`assert!` fires before the push), and the original registration is still
what a lookup of that BDF finds. -/
theorem c8_duplicate_register_aborts (st : PciBusState) (bdf : PciBDF)
    (dev0 dev' : PciDev) (h : st.find_dev bdf = some dev0) :
    st.register bdf dev' = none ∧ st.find_dev bdf = some dev0 := by
  refine ⟨?_, h⟩
  simp [PciBusState.register, h]

/-- Witness for C8 on a concrete one-device bus. -/
theorem c8_witness :
    PciBusState.register ⟨0, [(⟨0, 0, 0⟩, PciDev.new 1 2 3 4)]⟩ ⟨0, 0, 0⟩
      (PciDev.new 5 6 7 8) = none
    ∧ PciBusState.find_dev ⟨0, [(⟨0, 0, 0⟩, PciDev.new 1 2 3 4)]⟩ ⟨0, 0, 0⟩ =
        some (PciDev.new 1 2 3 4) :=
  c8_duplicate_register_aborts _ _ _ _ (by decide)

/-- C9: the USB PCI config layout sums to its declared size (3) with no
zero-length entry, and the XHC layout has no zero-length entry, but the
layout actually passed to `RegMap::create_packed_iter` for `XHC_REGS`
(capability + operational + 8 port quadruples) sums to 1184, while the
declared size argument `XHC_CAP_BASE_REG_SZ` is 32 — only the capability
prefix sums to the declared size. -/
theorem c9_layout_sums :
    layoutSum usb_pci_cfg_layout = USB_PCI_CFG_REG_SZ
    ∧ usb_pci_cfg_layout.all (fun e => decide (0 < e.2)) = true
    ∧ xhc_layout.all (fun e => decide (0 < e.2)) = true
    ∧ NUM_USB2_PORTS + NUM_USB3_PORTS = 8
    ∧ layoutSum cap_layout = XHC_CAP_BASE_REG_SZ
    ∧ layoutSum xhc_layout = 1184
    ∧ layoutSum xhc_layout ≠ XHC_CAP_BASE_REG_SZ := by
  decide

/-- C10: every `pio_out` to CONFIG_DATA, for any offset and data, returns
the state unchanged: the latched address, the registry and every
registered device's header are identical (config writes are dropped). -/
theorem c10_config_data_write_noop (st : PciBusState) (off : Nat)
    (data : List Nat) :
    PciBus.pio_out st PORT_PCI_CONFIG_DATA off data = .ok st := by
  have hports : PORT_PCI_CONFIG_DATA ≠ PORT_PCI_CONFIG_ADDR := by decide
  by_cases h : off ≠ 0 ∨ data.length ≠ 4
  · simp [PciBus.pio_out, h]
  · simp [PciBus.pio_out, h, hports]

end Propolis
